import Mathlib

/-!
Verification of the Toronto waste-pickup calendar pipeline
(`ical_toronto_waste.py`): a batch converter from tabular pickup-schedule
rows to per-calendar CSV and iCalendar files.  The Python source is embedded
shallowly: pure functions become Lean functions, the file-system side effects
become explicit lists of (path, contents) pairs, and the single wall-clock
read becomes an explicit `Timestamp` parameter.
-/

namespace IcalTorontoWaste

/-! ## Module-level constants (lines 13-25 and 114-125 of the source) -/

def CALENDAR_OUTPUT_DIR : String := "output/"
def CSV_OUTPUT_DIR : String := "csv/"
def ICS_OUTPUT_DIR : String := "ics/"
def CSV_OUT_PATH : String := CALENDAR_OUTPUT_DIR ++ CSV_OUTPUT_DIR
def ICS_OUT_PATH : String := CALENDAR_OUTPUT_DIR ++ ICS_OUTPUT_DIR

def INPUT_DATE_FORMATS : List String := ["%d-%m-%Y", "%Y-%m-%d"]
def CSV_DATE_FORMAT : String := "%m-%d-%y"
def ICS_DATE_FORMAT : String := "%Y%m%d"
def ICS_DATETIME_FORMAT : String := "%Y%m%dT%H%M%S"

def SUBJECT_GARBAGE : String := "Garbage Day"
def EMOJI_GARBAGE : String := "🗑"
def SUBJECT_RECYCLING : String := "Recycling Day"
def EMOJI_RECYCLING : String := "♻️"
def SUBJECT_YARD_WASTE : String := "Yard Waste"
def EMOJI_YARD_WASTE : String := "🍂"
def SUBJECT_CHRISTMAS_TREE : String := "Christmas Tree"
def EMOJI_CHRISTMAS_TREE : String := "🎄"

def URL_GARBAGE : String :=
  "https://www.toronto.ca/services-payments/recycling-organics-garbage/" ++
  "houses/what-goes-in-my-green-bin/"
def URL_RECYCLING : String :=
  "https://www.toronto.ca/services-payments/recycling-organics-garbage/waste-wizard/"

/-! ## Dates

`datetime.strptime` is embedded for exactly the two format strings the
program feeds it (`INPUT_DATE_FORMATS`).  CPython compiles `%d` to the
regex alternation `3[01]|[12]\d|0[1-9]|[1-9]` (a two-digit value 01-31,
else one digit 1-9), `%m` to `1[0-2]|0[1-9]|[1-9]` (two-digit 01-12, else
one digit 1-9), and `%Y` to exactly four digits; the whole string must be
consumed, and the resulting `datetime(year, month, day)` constructor
rejects out-of-range calendar dates (year 1-9999, day bounded by the month
length).  Regex alternation backtracks, so each numeric field contributes
an ordered list of candidates. -/

structure Date where
  year : Nat
  month : Nat
  day : Nat
deriving DecidableEq, Repr

def isLeapYear (y : Nat) : Bool :=
  y % 4 == 0 && (y % 100 != 0 || y % 400 == 0)

def daysInMonth (y m : Nat) : Nat :=
  if m == 2 then (if isLeapYear y then 29 else 28)
  else if m == 4 || m == 6 || m == 9 || m == 11 then 30
  else 31

/-- The validity check performed by the `datetime` constructor. -/
def validDate (y m d : Nat) : Bool :=
  1 ≤ y && y ≤ 9999 && 1 ≤ m && m ≤ 12 && 1 ≤ d && d ≤ daysInMonth y m

def digitVal (c : Char) : Nat := c.toNat - '0'.toNat

/-- Candidates (value, remaining input) for a day/month field, in regex
alternation order: the two-digit alternatives first, then the single
nonzero digit. -/
def fieldCandidates (maxVal : Nat) (s : List Char) : List (Nat × List Char) :=
  (match s with
   | c1 :: c2 :: rest =>
     if c1.isDigit && c2.isDigit then
       let v := 10 * digitVal c1 + digitVal c2
       if 1 ≤ v && v ≤ maxVal then [(v, rest)] else []
     else []
   | _ => []) ++
  (match s with
   | c1 :: rest => if '1' ≤ c1 && c1 ≤ '9' then [(digitVal c1, rest)] else []
   | _ => [])

/-- `%Y`: exactly four digits. -/
def year4 (s : List Char) : Option (Nat × List Char) :=
  match s with
  | a :: b :: c :: d :: rest =>
    if a.isDigit && b.isDigit && c.isDigit && d.isDigit then
      some (digitVal a * 1000 + digitVal b * 100 + digitVal c * 10 + digitVal d, rest)
    else none
  | _ => none

/-- `strptime` with format `"%d-%m-%Y"`. -/
def parseDMYchars (s : List Char) : Option Date :=
  (fieldCandidates 31 s).findSome? fun dc =>
    match dc.2 with
    | '-' :: r2 =>
      (fieldCandidates 12 r2).findSome? fun mc =>
        match mc.2 with
        | '-' :: r4 =>
          match year4 r4 with
          | some (y, []) => if validDate y mc.1 dc.1 then some ⟨y, mc.1, dc.1⟩ else none
          | _ => none
        | _ => none
    | _ => none

/-- `strptime` with format `"%Y-%m-%d"`. -/
def parseYMDchars (s : List Char) : Option Date :=
  match year4 s with
  | some (y, '-' :: r2) =>
    (fieldCandidates 12 r2).findSome? fun mc =>
      match mc.2 with
      | '-' :: r4 =>
        (fieldCandidates 31 r4).findSome? fun dc =>
          match dc.2 with
          | [] => if validDate y mc.1 dc.1 then some ⟨y, mc.1, dc.1⟩ else none
          | _ => none
      | _ => none
  | _ => none

/-- `datetime.strptime`, restricted to the two format strings the program
uses; `none` plays the role of the caught `ValueError`. -/
def strptime (fmt : String) (s : String) : Option Date :=
  if fmt == "%d-%m-%Y" then parseDMYchars s.data
  else if fmt == "%Y-%m-%d" then parseYMDchars s.data
  else none

def dateErrorMessage (s : String) : String :=
  "Date " ++ s ++ " does not match any known format."

/-- The loop body of `parse_date` (source lines 133-138): try each format
in order, return the first success, raise `ValueError` carrying the
original string if none matches. -/
def tryFormats (fmts : List String) (s : String) : Except String Date :=
  match fmts with
  | [] => .error (dateErrorMessage s)
  | f :: rest =>
    match strptime f s with
    | some d => .ok d
    | none => tryFormats rest s

/-- `parse_date` (source lines 128-138). -/
def parse_date (s : String) : Except String Date :=
  tryFormats INPUT_DATE_FORMATS s

/-! ## The `Pickup` record (source lines 141-189) -/

structure Pickup where
  calendar : String
  day : Date
  green_bin : Bool
  garbage : Bool
  recycling : Bool
  yard_waste : Bool
  christmas_tree : Bool
deriving DecidableEq, Repr

/-- The `ValueError` raised by fixed-arity list unpacking in CPython. -/
def unpackErrorMessage (n : Nat) : String :=
  if n < 8 then
    "not enough values to unpack (expected 8, got " ++ toString n ++ ")"
  else
    "too many values to unpack (expected 8)"

/-- `Pickup.__init__` (source lines 142-150): unpack the 8-field row
(first field ignored), parse the date flexibly, and read each flag as
"not the literal string 0". -/
def Pickup.init (row : List String) : Except String Pickup :=
  match row with
  | [_, calendar, day, green_bin, garbage, recycling, yard_waste, christmas_tree] =>
    match parse_date day with
    | .error e => .error e
    | .ok d =>
      .ok { calendar := calendar, day := d,
            green_bin := green_bin != "0",
            garbage := garbage != "0",
            recycling := recycling != "0",
            yard_waste := yard_waste != "0",
            christmas_tree := christmas_tree != "0" }
  | _ => .error (unpackErrorMessage row.length)

/-- `Pickup.subject` (source lines 152-168): two accumulator lists built by
four `if` statements, then `'{} {}'.format(''.join(emoji), '/'.join(types))`. -/
def Pickup.subject (p : Pickup) : String :=
  let acc : List String × List String := ([], [])
  let acc := if p.christmas_tree then
      (acc.1 ++ [EMOJI_CHRISTMAS_TREE], acc.2 ++ [SUBJECT_CHRISTMAS_TREE]) else acc
  let acc := if p.yard_waste then
      (acc.1 ++ [EMOJI_YARD_WASTE], acc.2 ++ [SUBJECT_YARD_WASTE]) else acc
  let acc := if p.recycling then
      (acc.1 ++ [EMOJI_RECYCLING], acc.2 ++ [SUBJECT_RECYCLING]) else acc
  let acc := if p.garbage then
      (acc.1 ++ [EMOJI_GARBAGE], acc.2 ++ [SUBJECT_GARBAGE]) else acc
  String.join acc.1 ++ " " ++ String.intercalate "/" acc.2

/-- `Pickup.description` (source lines 170-183). -/
def Pickup.description (p : Pickup) : String :=
  let types : List String := []
  let types := if p.christmas_tree then types ++ ["Christmas Tree"] else types
  let types := if p.garbage then types ++ ["Garbage"] else types
  let types := if p.recycling then types ++ ["Recycling"] else types
  let types := if p.green_bin then types ++ ["Green Bin"] else types
  let types := if p.yard_waste then types ++ ["Yard Waste"] else types
  String.intercalate "/" types

/-- `Pickup.url` (source lines 185-189). -/
def Pickup.url (p : Pickup) : String :=
  if p.recycling then URL_RECYCLING else URL_GARBAGE

/-! ## Ingestion aggregator (`process_data`, source lines 34-51)

A run's file system is embedded as a list of (filename, rows) pairs, where
each row is the field list the `csv` reader yields.  `glob` + `sorted`
becomes a merge sort on the filename; the `defaultdict(list)` (whose keys
keep insertion order in CPython) becomes an association list to which
`addPickup` appends. -/

def addPickup (m : List (String × List Pickup)) (p : Pickup) :
    List (String × List Pickup) :=
  if m.any (fun g => g.1 == p.calendar) then
    m.map fun g => if g.1 == p.calendar then (g.1, g.2 ++ [p]) else g
  else m ++ [(p.calendar, [p])]

/-- `data[pickup.calendar]` as read by the serializers: the group stored
under a key, `[]` when the key is absent. -/
def lookupGroup (cal : String) (m : List (String × List Pickup)) : List Pickup :=
  match m.find? (fun g => g.1 == cal) with
  | some g => g.2
  | none => []

/-- The inner `for row in lines` loop: construct each `Pickup` and append
it to its calendar's group; the first `ValueError` aborts. -/
def processRows (rows : List (List String)) (m : List (String × List Pickup)) :
    Except String (List (String × List Pickup)) :=
  match rows with
  | [] => .ok m
  | row :: rest =>
    match Pickup.init row with
    | .error e => .error e
    | .ok p => processRows rest (addPickup m p)

/-- One file: `lines.__next__()` skips exactly the header line (and raises
`StopIteration` on an empty file), then the row loop runs. -/
def processFile (rows : List (List String)) (m : List (String × List Pickup)) :
    Except String (List (String × List Pickup)) :=
  match rows with
  | [] => .error "StopIteration"
  | _ :: body => processRows body m

def processFiles (files : List (String × List (List String)))
    (m : List (String × List Pickup)) :
    Except String (List (String × List Pickup)) :=
  match files with
  | [] => .ok m
  | f :: rest =>
    match processFile f.2 m with
    | .error e => .error e
    | .ok m2 => processFiles rest m2

/-- `sorted` on filenames: code-point lexicographic order on the
character sequences, as in Python.  A stable sort with this reflexive
order reproduces `sorted` exactly. -/
def fileLe (a b : String × List (List String)) : Prop :=
  a.1.data ≤ b.1.data

instance fileLe.instDecidableRel : DecidableRel fileLe :=
  fun a b => inferInstanceAs (Decidable (a.1.data ≤ b.1.data))

instance fileLe.instIsTotal : IsTotal (String × List (List String)) fileLe :=
  ⟨fun a b => le_total a.1.data b.1.data⟩

instance fileLe.instIsTrans : IsTrans (String × List (List String)) fileLe :=
  ⟨fun _ _ _ hab hbc => le_trans hab hbc⟩

/-- `process_data` (source lines 34-51). -/
def process_data (files : List (String × List (List String))) :
    Except String (List (String × List Pickup)) :=
  processFiles (files.insertionSort fileLe) []

/-- The flat parse of a run: the `Pickup`s of every row of every file, one
header line skipped per file, in sorted-file-then-row order, with no
grouping.  Used to characterise what `process_data` groups. -/
def parseRows (rows : List (List String)) : Except String (List Pickup) :=
  match rows with
  | [] => .ok []
  | row :: rest =>
    match Pickup.init row with
    | .error e => .error e
    | .ok p =>
      match parseRows rest with
      | .error e => .error e
      | .ok ps => .ok (p :: ps)

def parseFileRows (rows : List (List String)) : Except String (List Pickup) :=
  match rows with
  | [] => .error "StopIteration"
  | _ :: body => parseRows body

def parseAllFiles (files : List (String × List (List String))) :
    Except String (List Pickup) :=
  match files with
  | [] => .ok []
  | f :: rest =>
    match parseFileRows f.2 with
    | .error e => .error e
    | .ok ps =>
      match parseAllFiles rest with
      | .error e => .error e
      | .ok qs => .ok (ps ++ qs)

/-! ## Tabular serializer (`write_csv`, source lines 54-72)

The written files are embedded as (path, rows) pairs; the `csv.writer`
emits one field list per `writerow` call. -/

/-- `strftime` zero-padded two-digit field (`%m`, `%d`, `%y`, `%H`, ...). -/
def twoDigit (n : Nat) : String :=
  (if n < 10 then "0" else "") ++ toString n

/-- `strftime` zero-padded four-digit year (`%Y`). -/
def fourDigit (n : Nat) : String :=
  (if n < 10 then "000" else if n < 100 then "00" else if n < 1000 then "0" else "")
    ++ toString n

/-- `datetime.strftime(day, '%m-%d-%y')`. -/
def formatCsvDate (d : Date) : String :=
  twoDigit d.month ++ "-" ++ twoDigit d.day ++ "-" ++ twoDigit (d.year % 100)

def csvHeaderRow : List String :=
  ["Subject", "Start Date", "All Day Event", "Description"]

/-- The row written per pickup (source lines 66-70). -/
def csvRow (p : Pickup) : List String :=
  [p.subject, formatCsvDate p.day, "TRUE",
   p.description ++ " - See " ++ p.url]

/-- `write_csv` (source lines 54-72). -/
def write_csv (data : List (String × List Pickup)) :
    List (String × List (List String)) :=
  data.map fun g => (CSV_OUT_PATH ++ g.1 ++ ".csv", csvHeaderRow :: g.2.map csvRow)

/-! ## Calendar-interchange serializer (`write_ics`, source lines 75-111)

`datetime.now()` is the program's only clock read; it becomes the explicit
`now : Timestamp` argument, formatted exactly once before the calendar
loop, mirroring source lines 78-79.  Each written file is a (path, lines)
pair; each line is written with a trailing CRLF that the embedding leaves
implicit. -/

structure Timestamp where
  year : Nat
  month : Nat
  day : Nat
  hour : Nat
  minute : Nat
  second : Nat
deriving DecidableEq, Repr

/-- `datetime.strftime(now, '%Y%m%dT%H%M%S')`. -/
def formatIcsDateTime (t : Timestamp) : String :=
  fourDigit t.year ++ twoDigit t.month ++ twoDigit t.day ++ "T" ++
  twoDigit t.hour ++ twoDigit t.minute ++ twoDigit t.second

/-- `datetime.strftime(day, '%Y%m%d')`. -/
def formatIcsDate (d : Date) : String :=
  fourDigit d.year ++ twoDigit d.month ++ twoDigit d.day

/-- The per-calendar preamble (source lines 87-94). -/
def icsHeaderLines (calendar : String) : List String :=
  ["BEGIN:VCALENDAR",
   "VERSION:2.0",
   "CALSCALE:GREGORIAN",
   "METHOD:PUBLISH",
   "PRODID:https://github.com/mtpettyp/ical_toronto_waste",
   "X-WR-CALNAME:" ++ calendar ++ " Waste Pickup",
   "X-WR-TIMEZONE:America/Toronto"]

/-- One VEVENT block (source lines 96-107). -/
def icsEventLines (stamp calendar : String) (p : Pickup) : List String :=
  let start_date := formatIcsDate p.day
  ["BEGIN:VEVENT",
   "URL;VALUE=URI:" ++ p.url,
   "SUMMARY:" ++ p.subject,
   "DTSTART;VALUE=DATE:" ++ start_date,
   "DTSTAMP;VALUE=DATETIME:" ++ stamp,
   "UID:" ++ start_date ++ calendar,
   "DESCRIPTION:" ++ p.description,
   "TRANSP:TRANSPARENT",
   "END:VEVENT"]

/-- `write_ics` (source lines 75-111). -/
def write_ics (now : Timestamp) (data : List (String × List Pickup)) :
    List (String × List String) :=
  let ics_generation_time := formatIcsDateTime now
  data.map fun g =>
    (ICS_OUT_PATH ++ g.1 ++ ".ics",
     icsHeaderLines g.1 ++
     (g.2.map (icsEventLines ics_generation_time g.1)).flatten ++
     ["END:VCALENDAR"])

/-! ## Spec-side restatements used by the refinement claims -/

/-- The specification's reading of `subject`: the four subject categories
in the fixed order christmas-tree, yard-waste, recycling, garbage,
filtered by their flags; the surviving emoji concatenated, then the
surviving names joined by "/", emoji block first. -/
def subjectSpec (p : Pickup) : String :=
  let kept := [(p.christmas_tree, EMOJI_CHRISTMAS_TREE, SUBJECT_CHRISTMAS_TREE),
               (p.yard_waste, EMOJI_YARD_WASTE, SUBJECT_YARD_WASTE),
               (p.recycling, EMOJI_RECYCLING, SUBJECT_RECYCLING),
               (p.garbage, EMOJI_GARBAGE, SUBJECT_GARBAGE)].filter (fun c => c.1)
  String.join (kept.map (fun c => c.2.1)) ++ " " ++
    String.intercalate "/" (kept.map (fun c => c.2.2))

/-- The specification's reading of `description`: the five description
categories in the fixed order christmas-tree, garbage, recycling,
green-bin, yard-waste, filtered by their flags and joined by "/". -/
def descriptionSpec (p : Pickup) : String :=
  String.intercalate "/"
    (([(p.christmas_tree, "Christmas Tree"),
       (p.garbage, "Garbage"),
       (p.recycling, "Recycling"),
       (p.green_bin, "Green Bin"),
       (p.yard_waste, "Yard Waste")].filter (fun c => c.1)).map (fun c => c.2))

/-- The emoji block of `subject` in isolation, as a function of the four
flags that feed it. -/
def subjectEmojiPart (ct yw r g : Bool) : String :=
  String.join ((if ct then [EMOJI_CHRISTMAS_TREE] else []) ++
               (if yw then [EMOJI_YARD_WASTE] else []) ++
               (if r then [EMOJI_RECYCLING] else []) ++
               (if g then [EMOJI_GARBAGE] else []))

/-- The category-name block of `subject` in isolation, as a function of
the four flags that feed it. -/
def subjectNamePart (ct yw r g : Bool) : String :=
  String.intercalate "/"
    ((if ct then [SUBJECT_CHRISTMAS_TREE] else []) ++
     (if yw then [SUBJECT_YARD_WASTE] else []) ++
     (if r then [SUBJECT_RECYCLING] else []) ++
     (if g then [SUBJECT_GARBAGE] else []))

/-! ## Claims -/

/-- C1: `parse_date` tries the day-month-year format and then the
year-month-day format in that order and returns the date given by the
first format that matches; if neither matches it fails with an error
carrying the original string.  In particular "15-03-2024" and
"2024-03-15" parse to 15 March 2024 and "2024/03/15" fails. -/
theorem parse_date_tries_formats_in_order (s : String) :
    (∀ d, strptime "%d-%m-%Y" s = some d → parse_date s = .ok d) ∧
    (strptime "%d-%m-%Y" s = none →
      ∀ d, strptime "%Y-%m-%d" s = some d → parse_date s = .ok d) ∧
    (strptime "%d-%m-%Y" s = none → strptime "%Y-%m-%d" s = none →
      parse_date s = .error (dateErrorMessage s)) ∧
    parse_date "15-03-2024" = .ok ⟨2024, 3, 15⟩ ∧
    parse_date "2024-03-15" = .ok ⟨2024, 3, 15⟩ ∧
    parse_date "2024/03/15" = .error (dateErrorMessage "2024/03/15") := by
  refine ⟨?_, ?_, ?_, rfl, rfl, rfl⟩
  · intro d h
    simp [parse_date, INPUT_DATE_FORMATS, tryFormats, h]
  · intro h1 d h2
    simp [parse_date, INPUT_DATE_FORMATS, tryFormats, h1, h2]
  · intro h1 h2
    simp [parse_date, INPUT_DATE_FORMATS, tryFormats, h1, h2]

theorem parse_date_tries_formats_in_order_witness :
    parse_date "15-03-2024" = .ok ⟨2024, 3, 15⟩ ∧
    parse_date "2024-03-15" = .ok ⟨2024, 3, 15⟩ ∧
    parse_date "2024/03/15" = .error (dateErrorMessage "2024/03/15") :=
  ⟨(parse_date_tries_formats_in_order "15-03-2024").1 ⟨2024, 3, 15⟩ (by rfl),
   (parse_date_tries_formats_in_order "2024-03-15").2.1 (by rfl) ⟨2024, 3, 15⟩ (by rfl),
   (parse_date_tries_formats_in_order "2024/03/15").2.2.1 (by rfl) (by rfl)⟩

/-- C2: `subject` is the emoji of the true subject categories concatenated
in the order christmas-tree, yard-waste, recycling, garbage, then a single
space, then the corresponding category names joined by "/" in the same
order, emoji block first; a pickup whose only true flag among those four
is garbage has subject "🗑 Garbage Day". -/
theorem subject_matches_spec (p : Pickup) :
    p.subject = subjectSpec p ∧
    (p.garbage = true → p.recycling = false → p.yard_waste = false →
      p.christmas_tree = false → p.subject = "🗑 Garbage Day") := by
  obtain ⟨cal, day, gb, g, r, yw, ct⟩ := p
  constructor
  · cases g <;> cases r <;> cases yw <;> cases ct <;> rfl
  · intro hg hr hy hc
    subst hg hr hy hc
    rfl

theorem subject_matches_spec_witness :
    (Pickup.mk "Ward1" ⟨2024, 6, 1⟩ false true false false false).subject =
      "🗑 Garbage Day" :=
  (subject_matches_spec (Pickup.mk "Ward1" ⟨2024, 6, 1⟩ false true false false false)).2
    rfl rfl rfl rfl

/-- C3: `description` is the names of the true categories joined by "/" in
the order christmas-tree, garbage, recycling, green-bin, yard-waste (a
different order than `subject`); with garbage, recycling and green-bin
true and the others false it is "Garbage/Recycling/Green Bin". -/
theorem description_matches_spec (p : Pickup) :
    p.description = descriptionSpec p ∧
    (p.garbage = true → p.recycling = true → p.green_bin = true →
      p.yard_waste = false → p.christmas_tree = false →
      p.description = "Garbage/Recycling/Green Bin") := by
  obtain ⟨cal, day, gb, g, r, yw, ct⟩ := p
  constructor
  · cases gb <;> cases g <;> cases r <;> cases yw <;> cases ct <;> rfl
  · intro hg hr hb hy hc
    subst hg hr hb hy hc
    rfl

theorem description_matches_spec_witness :
    (Pickup.mk "Ward1" ⟨2024, 6, 1⟩ true true true false false).description =
      "Garbage/Recycling/Green Bin" :=
  (description_matches_spec (Pickup.mk "Ward1" ⟨2024, 6, 1⟩ true true true false false)).2
    rfl rfl rfl rfl rfl

/-- C4: for every group, the tabular serializer writes the header
Subject/Start Date/All Day Event/Description and one row per pickup in
stored order: subject; the day as two-digit month-day-year; the literal
TRUE; and the description followed by " - See " and the url, where the
url is the recycling URL if `recycling` is true and the garbage/green-bin
URL otherwise. -/
theorem write_csv_row_format (data : List (String × List Pickup))
    (cal : String) (ps : List Pickup) (h : (cal, ps) ∈ data) :
    (CSV_OUT_PATH ++ cal ++ ".csv",
      ["Subject", "Start Date", "All Day Event", "Description"] ::
        ps.map (fun p =>
          [p.subject,
           twoDigit p.day.month ++ "-" ++ twoDigit p.day.day ++ "-" ++
             twoDigit (p.day.year % 100),
           "TRUE",
           p.description ++ " - See " ++
             (if p.recycling then URL_RECYCLING else URL_GARBAGE)]))
      ∈ write_csv data := by
  have := List.mem_map_of_mem
    (fun g : String × List Pickup =>
      (CSV_OUT_PATH ++ g.1 ++ ".csv", csvHeaderRow :: g.2.map csvRow)) h
  simpa [write_csv, csvHeaderRow, csvRow, formatCsvDate, Pickup.url] using this

theorem write_csv_row_format_witness :
    (CSV_OUT_PATH ++ "Ward1" ++ ".csv",
      ["Subject", "Start Date", "All Day Event", "Description"] ::
        [Pickup.mk "Ward1" ⟨2024, 6, 1⟩ true true false false false].map (fun p =>
          [p.subject,
           twoDigit p.day.month ++ "-" ++ twoDigit p.day.day ++ "-" ++
             twoDigit (p.day.year % 100),
           "TRUE",
           p.description ++ " - See " ++
             (if p.recycling then URL_RECYCLING else URL_GARBAGE)]))
      ∈ write_csv [("Ward1", [Pickup.mk "Ward1" ⟨2024, 6, 1⟩ true true false false false])] :=
  write_csv_row_format _ "Ward1" _ (List.mem_singleton.mpr rfl)

/-- C5: two pickups of the same run with the same day and the same
calendar identifier get identical UID lines: the UID is the compact
8-digit date followed by the calendar identifier, so such pairs collide. -/
theorem ics_uid_collision (stamp cal : String) (p1 p2 : Pickup)
    (h : p1.day = p2.day) :
    (icsEventLines stamp cal p1)[5]? =
      some ("UID:" ++ formatIcsDate p1.day ++ cal) ∧
    (icsEventLines stamp cal p1)[5]? = (icsEventLines stamp cal p2)[5]? := by
  constructor
  · rfl
  · simp only [icsEventLines, h]
    rfl

theorem ics_uid_collision_witness :
    (icsEventLines "20240101T000000" "Ward1"
        (Pickup.mk "Ward1" ⟨2024, 6, 1⟩ false true false false false))[5]? =
      some ("UID:" ++ formatIcsDate ⟨2024, 6, 1⟩ ++ "Ward1") ∧
    (icsEventLines "20240101T000000" "Ward1"
        (Pickup.mk "Ward1" ⟨2024, 6, 1⟩ false true false false false))[5]? =
      (icsEventLines "20240101T000000" "Ward1"
        (Pickup.mk "Ward1" ⟨2024, 6, 1⟩ false false true false false))[5]? :=
  ics_uid_collision "20240101T000000" "Ward1" _ _ rfl

/-- C9: for every 8-field row accepted by the record parser, each of the
five flags is true exactly when the corresponding field is not the
literal string "0"; in particular "", "false" and "00" are all truthy. -/
theorem pickup_flags_truthy (row : List String) (p : Pickup)
    (h : Pickup.init row = .ok p) :
    row.length = 8 ∧
    p.green_bin = (row.getD 3 "" != "0") ∧
    p.garbage = (row.getD 4 "" != "0") ∧
    p.recycling = (row.getD 5 "" != "0") ∧
    p.yard_waste = (row.getD 6 "" != "0") ∧
    p.christmas_tree = (row.getD 7 "" != "0") ∧
    ("" != "0") = true ∧ ("false" != "0") = true ∧ ("00" != "0") = true := by
  match row with
  | [] => exact absurd h (by simp [Pickup.init])
  | [_] => exact absurd h (by simp [Pickup.init])
  | [_, _] => exact absurd h (by simp [Pickup.init])
  | [_, _, _] => exact absurd h (by simp [Pickup.init])
  | [_, _, _, _] => exact absurd h (by simp [Pickup.init])
  | [_, _, _, _, _] => exact absurd h (by simp [Pickup.init])
  | [_, _, _, _, _, _] => exact absurd h (by simp [Pickup.init])
  | [_, _, _, _, _, _, _] => exact absurd h (by simp [Pickup.init])
  | f0 :: f1 :: f2 :: f3 :: f4 :: f5 :: f6 :: f7 :: f8 :: rest =>
    exact absurd h (by simp [Pickup.init])
  | [f0, f1, f2, f3, f4, f5, f6, f7] =>
    simp only [Pickup.init] at h
    cases hpd : parse_date f2 with
    | error e => rw [hpd] at h; exact absurd h (by simp)
    | ok d =>
      rw [hpd] at h
      obtain rfl := (Except.ok.inj h)
      exact ⟨rfl, rfl, rfl, rfl, rfl, rfl, by decide, by decide, by decide⟩

theorem pickup_flags_truthy_witness :
    (["1", "Ward1", "01-06-2024", "", "false", "00", "0", "1"] : List String).length = 8 ∧
    (Pickup.mk "Ward1" ⟨2024, 6, 1⟩ true true true false true).green_bin =
      ((["1", "Ward1", "01-06-2024", "", "false", "00", "0", "1"] : List String).getD 3 "" != "0") ∧
    (Pickup.mk "Ward1" ⟨2024, 6, 1⟩ true true true false true).garbage =
      ((["1", "Ward1", "01-06-2024", "", "false", "00", "0", "1"] : List String).getD 4 "" != "0") ∧
    (Pickup.mk "Ward1" ⟨2024, 6, 1⟩ true true true false true).recycling =
      ((["1", "Ward1", "01-06-2024", "", "false", "00", "0", "1"] : List String).getD 5 "" != "0") ∧
    (Pickup.mk "Ward1" ⟨2024, 6, 1⟩ true true true false true).yard_waste =
      ((["1", "Ward1", "01-06-2024", "", "false", "00", "0", "1"] : List String).getD 6 "" != "0") ∧
    (Pickup.mk "Ward1" ⟨2024, 6, 1⟩ true true true false true).christmas_tree =
      ((["1", "Ward1", "01-06-2024", "", "false", "00", "0", "1"] : List String).getD 7 "" != "0") ∧
    ("" != "0") = true ∧ ("false" != "0") = true ∧ ("00" != "0") = true :=
  pickup_flags_truthy ["1", "Ward1", "01-06-2024", "", "false", "00", "0", "1"]
    (Pickup.mk "Ward1" ⟨2024, 6, 1⟩ true true true false true) (by rfl)

/-- The emoji block never contains a space, whatever the flags. -/
lemma space_not_in_subjectEmojiPart :
    ∀ ct yw r g : Bool, ' ' ∈ (subjectEmojiPart ct yw r g).data → False := by
  decide

/-- C10: `subject` is always the emoji block, one separating space, and
the name block, with no space inside the emoji block; `green_bin` never
contributes to it; consequently when christmas-tree, yard-waste,
recycling and garbage are all false (e.g. a green-bin-only row) the
subject is the single-space string " ". -/
theorem subject_space_and_green_bin (p : Pickup) (b : Bool) :
    p.subject = subjectEmojiPart p.christmas_tree p.yard_waste p.recycling p.garbage
      ++ " " ++ subjectNamePart p.christmas_tree p.yard_waste p.recycling p.garbage ∧
    (' ' ∈ (subjectEmojiPart p.christmas_tree p.yard_waste p.recycling p.garbage).data
      → False) ∧
    Pickup.subject { p with green_bin := b } = p.subject ∧
    (p.christmas_tree = false → p.yard_waste = false → p.recycling = false →
      p.garbage = false → p.subject = " ") := by
  obtain ⟨cal, day, gb, g, r, yw, ct⟩ := p
  refine ⟨?_, ?_, ?_, ?_⟩
  · cases g <;> cases r <;> cases yw <;> cases ct <;> rfl
  · exact fun hmem => space_not_in_subjectEmojiPart _ _ _ _ hmem
  · cases g <;> cases r <;> cases yw <;> cases ct <;> rfl
  · intro hc hy hr hg
    subst hc hy hr hg
    rfl

theorem subject_space_and_green_bin_witness :
    (Pickup.mk "Ward1" ⟨2024, 6, 1⟩ true false false false false).subject = " " :=
  (subject_space_and_green_bin
      (Pickup.mk "Ward1" ⟨2024, 6, 1⟩ true false false false false) false).2.2.2
    rfl rfl rfl rfl

/-! ## C6: the single run-wide DTSTAMP -/

/-- Recognises the DTSTAMP line of an event by its field name. -/
def isDtstampLine (l : String) : Bool :=
  "DTSTAMP;".data.isPrefixOf l.data

lemma data_append (a b : String) : (a ++ b).data = a.data ++ b.data := rfl

lemma isPrefixOf_append_of_le (p a b : List Char) (h : p.length ≤ a.length) :
    p.isPrefixOf (a ++ b) = p.isPrefixOf a := by
  induction p generalizing a with
  | nil => simp [List.isPrefixOf]
  | cons x xs ih =>
    cases a with
    | nil => simp at h
    | cons y ys =>
      simp only [List.cons_append, List.isPrefixOf, List.append_eq]
      rw [ih ys (by simpa using h)]

lemma isPrefixOf_append_short (p a b : List Char) (hlen : a.length ≤ p.length)
    (hne : p.take a.length ≠ a) : p.isPrefixOf (a ++ b) = false := by
  induction p generalizing a with
  | nil =>
    cases a with
    | nil => exact absurd rfl hne
    | cons y ys => simp at hlen
  | cons x xs ih =>
    cases a with
    | nil => exact absurd rfl hne
    | cons y ys =>
      simp only [List.length_cons, List.take_succ_cons] at hne
      simp only [List.cons_append, List.isPrefixOf, List.append_eq]
      by_cases hxy : x = y
      · subst hxy
        have hne' : xs.take ys.length ≠ ys := fun hcon => hne (by rw [hcon])
        rw [ih ys (by simpa using hlen) hne']
        simp
      · have hxy' : (x == y) = false := by simp [hxy]
        rw [hxy']
        simp

/-- A line that starts with at least eight characters that are not
"DTSTAMP;" is not a DTSTAMP line, whatever follows. -/
lemma isDtstampLine_append_long (a b : String) (h8 : 8 ≤ a.data.length)
    (hne : "DTSTAMP;".data.isPrefixOf a.data = false) :
    isDtstampLine (a ++ b) = false := by
  rw [isDtstampLine, data_append,
    isPrefixOf_append_of_le _ _ _
      (show ("DTSTAMP;".data).length ≤ a.data.length from h8), hne]

/-- A line whose first characters (fewer than eight) already disagree with
"DTSTAMP;" is not a DTSTAMP line, whatever follows. -/
lemma isDtstampLine_append_short (a b : String) (hlen : a.data.length ≤ 8)
    (hne : "DTSTAMP;".data.take a.data.length ≠ a.data) :
    isDtstampLine (a ++ b) = false := by
  rw [isDtstampLine, data_append]
  exact isPrefixOf_append_short _ _ _ hlen hne

/-- C6: the interchange serializer formats the wall-clock reading exactly
once, before iterating the calendars (the single `now` parameter of
`write_ics`, formatted once, mirroring source lines 78-79), and every
DTSTAMP line of every event in every output calendar of the run carries
that one formatted timestamp. -/
theorem ics_dtstamp_single_timestamp (now : Timestamp)
    (data : List (String × List Pickup)) (path : String)
    (lines : List String) (l : String)
    (h1 : (path, lines) ∈ write_ics now data) (h2 : l ∈ lines)
    (h3 : isDtstampLine l = true) :
    l = "DTSTAMP;VALUE=DATETIME:" ++ formatIcsDateTime now := by
  simp only [write_ics, List.mem_map] at h1
  obtain ⟨⟨cal, ps⟩, hmem, heq⟩ := h1
  obtain ⟨hpath, hlines⟩ := Prod.mk.injEq .. ▸ heq
  subst hlines
  rcases List.mem_append.mp h2 with hl | hl
  · rcases List.mem_append.mp hl with hl | hl
    · -- the seven preamble lines
      simp only [icsHeaderLines, List.mem_cons, List.not_mem_nil, or_false] at hl
      rcases hl with rfl | rfl | rfl | rfl | rfl | rfl | rfl
      · exact absurd h3 (by decide)
      · exact absurd h3 (by decide)
      · exact absurd h3 (by decide)
      · exact absurd h3 (by decide)
      · exact absurd h3 (by decide)
      · rw [String.append_assoc] at h3
        exact absurd h3 (by
          rw [isDtstampLine_append_long "X-WR-CALNAME:" _ (by decide) (by decide)]
          decide)
      · exact absurd h3 (by decide)
    · -- the event blocks
      obtain ⟨ll, hll, hl⟩ := List.mem_flatten.mp hl
      obtain ⟨p, hp, rfl⟩ := List.mem_map.mp hll
      simp only [icsEventLines, List.mem_cons, List.not_mem_nil, or_false] at hl
      rcases hl with rfl | rfl | rfl | rfl | rfl | rfl | rfl | rfl | rfl
      · exact absurd h3 (by decide)
      · exact absurd h3 (by
          rw [isDtstampLine_append_long "URL;VALUE=URI:" _ (by decide) (by decide)]
          decide)
      · exact absurd h3 (by
          rw [isDtstampLine_append_long "SUMMARY:" _ (by decide) (by decide)]
          decide)
      · exact absurd h3 (by
          rw [isDtstampLine_append_long "DTSTART;VALUE=DATE:" _ (by decide) (by decide)]
          decide)
      · rfl
      · rw [String.append_assoc] at h3
        exact absurd h3 (by
          rw [isDtstampLine_append_short "UID:" _ (by decide) (by decide)]
          decide)
      · exact absurd h3 (by
          rw [isDtstampLine_append_long "DESCRIPTION:" _ (by decide) (by decide)]
          decide)
      · exact absurd h3 (by decide)
      · exact absurd h3 (by decide)
  · -- the closing line
    simp only [List.mem_cons, List.not_mem_nil, or_false] at hl
    subst hl
    exact absurd h3 (by decide)

theorem ics_dtstamp_single_timestamp_witness :
    ("DTSTAMP;VALUE=DATETIME:" ++ formatIcsDateTime ⟨2024, 1, 2, 3, 4, 5⟩ : String) =
      "DTSTAMP;VALUE=DATETIME:" ++ formatIcsDateTime ⟨2024, 1, 2, 3, 4, 5⟩ :=
  ics_dtstamp_single_timestamp ⟨2024, 1, 2, 3, 4, 5⟩
    [("Ward1", [Pickup.mk "Ward1" ⟨2024, 6, 1⟩ false true false false false])]
    (ICS_OUT_PATH ++ "Ward1" ++ ".ics")
    (icsHeaderLines "Ward1" ++
      ([Pickup.mk "Ward1" ⟨2024, 6, 1⟩ false true false false false].map
        (icsEventLines (formatIcsDateTime ⟨2024, 1, 2, 3, 4, 5⟩) "Ward1")).flatten ++
      ["END:VCALENDAR"])
    ("DTSTAMP;VALUE=DATETIME:" ++ formatIcsDateTime ⟨2024, 1, 2, 3, 4, 5⟩)
    (List.mem_singleton.mpr rfl) (by decide) (by decide)

/-! ## C7/C8: grouping and abort behaviour of the aggregator -/

lemma eq_false_of_not_true {b : Bool} (h : ¬ b = true) : b = false := by
  cases b with
  | false => rfl
  | true => exact absurd rfl h

lemma lookupGroup_cons_pos (cal : String) (g : String × List Pickup)
    (gs : List (String × List Pickup)) (h : (g.1 == cal) = true) :
    lookupGroup cal (g :: gs) = g.2 := by
  simp [lookupGroup, List.find?_cons, h]

lemma lookupGroup_cons_neg (cal : String) (g : String × List Pickup)
    (gs : List (String × List Pickup)) (h : (g.1 == cal) = false) :
    lookupGroup cal (g :: gs) = lookupGroup cal gs := by
  simp [lookupGroup, List.find?_cons, h]

lemma lookupGroup_map_append (cal : String) (p : Pickup)
    (m : List (String × List Pickup)) :
    lookupGroup cal
        (m.map fun g => if g.1 == p.calendar then (g.1, g.2 ++ [p]) else g) =
      lookupGroup cal m ++
        (if (m.any fun g => g.1 == cal) && (p.calendar == cal) then [p] else []) := by
  induction m with
  | nil => simp [lookupGroup]
  | cons g gs ih =>
    have hfst : ((if g.1 == p.calendar then (g.1, g.2 ++ [p]) else g)).1 = g.1 := by
      split <;> rfl
    by_cases hg : (g.1 == cal) = true
    · have hg1 : g.1 = cal := by simpa using hg
      rw [List.map_cons, lookupGroup_cons_pos _ _ _ (by rw [hfst]; exact hg),
        lookupGroup_cons_pos _ _ _ hg, List.any_cons]
      by_cases hgp : (g.1 == p.calendar) = true
      · have hgp1 : g.1 = p.calendar := by simpa using hgp
        have hpc : (p.calendar == cal) = true := by
          simp [← hgp1, hg1]
        simp [hgp, hg, hpc]
      · have hgp' : (g.1 == p.calendar) = false := eq_false_of_not_true hgp
        have hpc : (p.calendar == cal) = false := by
          cases hb : (p.calendar == cal) with
          | false => rfl
          | true =>
            have h1 : p.calendar = cal := by simpa using hb
            have h2 : (g.1 == p.calendar) = true := by simp [hg1, h1]
            rw [h2] at hgp'
            exact absurd hgp' (by simp)
        simp [hgp', hg, hpc]
    · have hg' : (g.1 == cal) = false := eq_false_of_not_true hg
      rw [List.map_cons, lookupGroup_cons_neg _ _ _ (by rw [hfst]; exact hg'),
        lookupGroup_cons_neg _ _ _ hg', ih, List.any_cons, hg', Bool.false_or]

lemma lookupGroup_addPickup (cal : String) (m : List (String × List Pickup))
    (p : Pickup) :
    lookupGroup cal (addPickup m p) =
      lookupGroup cal m ++ (if p.calendar == cal then [p] else []) := by
  unfold addPickup
  by_cases hany : (m.any fun g => g.1 == p.calendar) = true
  · rw [if_pos hany, lookupGroup_map_append]
    by_cases hpc : (p.calendar == cal) = true
    · have hcal : (m.any fun g => g.1 == cal) = true := by
        have hpc1 : p.calendar = cal := by simpa using hpc
        rw [← hpc1]
        exact hany
      rw [hcal, hpc]
      simp
    · rw [eq_false_of_not_true hpc]
      simp
  · have hany' : (m.any fun g => g.1 == p.calendar) = false :=
      eq_false_of_not_true hany
    rw [if_neg (by simp [hany'])]
    clear hany
    induction m with
    | nil =>
      by_cases hpc : (p.calendar == cal) = true
      · simp [lookupGroup, List.find?_cons, hpc]
      · simp [lookupGroup, List.find?_cons, eq_false_of_not_true hpc]
    | cons g gs ih =>
      rw [List.any_cons] at hany'
      have hg : (g.1 == p.calendar) = false := by
        cases hgb : (g.1 == p.calendar) with
        | false => rfl
        | true => rw [hgb] at hany'; simp at hany'
      have hgs : (gs.any fun g => g.1 == p.calendar) = false := by
        cases hb : (gs.any fun g => g.1 == p.calendar) with
        | false => rfl
        | true => rw [hb] at hany'; simp at hany'
      by_cases hgc : (g.1 == cal) = true
      · rw [List.cons_append, lookupGroup_cons_pos _ _ _ hgc,
          lookupGroup_cons_pos _ _ _ hgc]
        -- `cal` is already keyed by `g`, and `p` belongs to a different key
        have hpc' : (p.calendar == cal) = false := by
          cases hpcb : (p.calendar == cal) with
          | false => rfl
          | true =>
            have h1 : p.calendar = cal := by simpa using hpcb
            have h2 : g.1 = cal := by simpa using hgc
            have h3 : (g.1 == p.calendar) = true := by simp [h1, h2]
            rw [h3] at hg
            exact absurd hg (by simp)
        rw [hpc']
        simp
      · have hgc' : (g.1 == cal) = false := eq_false_of_not_true hgc
        rw [List.cons_append, lookupGroup_cons_neg _ _ _ hgc',
          lookupGroup_cons_neg _ _ _ hgc']
        exact ih hgs

lemma lookupGroup_foldl (cal : String) (ps : List Pickup)
    (m : List (String × List Pickup)) :
    lookupGroup cal (ps.foldl addPickup m) =
      lookupGroup cal m ++ ps.filter (fun p => p.calendar == cal) := by
  induction ps generalizing m with
  | nil => simp
  | cons p ps ih =>
    rw [List.foldl_cons, ih, lookupGroup_addPickup, List.filter_cons]
    by_cases hp : (p.calendar == cal) = true
    · simp [hp]
    · simp [eq_false_of_not_true hp]

lemma keys_map_append (p : Pickup) (m : List (String × List Pickup)) :
    (m.map fun g => if g.1 == p.calendar then (g.1, g.2 ++ [p]) else g).map Prod.fst =
      m.map Prod.fst := by
  induction m with
  | nil => rfl
  | cons g gs ih =>
    simp only [List.map_cons, ih]
    congr 1
    split <;> rfl

lemma nodup_keys_addPickup (m : List (String × List Pickup)) (p : Pickup)
    (h : (m.map Prod.fst).Nodup) : ((addPickup m p).map Prod.fst).Nodup := by
  unfold addPickup
  by_cases hany : (m.any fun g => g.1 == p.calendar) = true
  · rw [if_pos hany, keys_map_append]
    exact h
  · have hany' : (m.any fun g => g.1 == p.calendar) = false :=
      eq_false_of_not_true hany
    rw [if_neg (by simp [hany']), List.map_append]
    rw [List.nodup_append]
    refine ⟨h, List.nodup_singleton _, ?_⟩
    intro a ha hb
    obtain ⟨g, hg, rfl⟩ := List.mem_map.mp ha
    simp only [List.map_cons, List.map_nil, List.mem_singleton] at hb
    have hbeq : (g.1 == p.calendar) = true := by simp [hb]
    have hcon : (m.any fun g => g.1 == p.calendar) = true :=
      List.any_eq_true.mpr ⟨g, hg, hbeq⟩
    rw [hcon] at hany'
    exact absurd hany' (by simp)

lemma nodup_keys_foldl (ps : List Pickup) (m : List (String × List Pickup))
    (h : (m.map Prod.fst).Nodup) :
    ((ps.foldl addPickup m).map Prod.fst).Nodup := by
  induction ps generalizing m with
  | nil => exact h
  | cons p ps ih => exact ih _ (nodup_keys_addPickup m p h)

lemma processRows_ok (rows : List (List String)) (m m' : List (String × List Pickup))
    (h : processRows rows m = .ok m') :
    ∃ ps, parseRows rows = .ok ps ∧ m' = ps.foldl addPickup m := by
  induction rows generalizing m with
  | nil =>
    refine ⟨[], rfl, ?_⟩
    simpa [processRows] using h.symm
  | cons row rest ih =>
    simp only [processRows] at h
    cases hinit : Pickup.init row with
    | error e => rw [hinit] at h; exact absurd h (by simp)
    | ok p =>
      rw [hinit] at h
      obtain ⟨ps, hps, rfl⟩ := ih _ h
      exact ⟨p :: ps, by simp [parseRows, hinit, hps], by simp⟩

lemma processFile_ok (rows : List (List String)) (m m' : List (String × List Pickup))
    (h : processFile rows m = .ok m') :
    ∃ ps, parseFileRows rows = .ok ps ∧ m' = ps.foldl addPickup m := by
  cases rows with
  | nil => exact absurd h (by simp [processFile])
  | cons hd body => exact processRows_ok body m m' h

lemma processFiles_ok (files : List (String × List (List String)))
    (m m' : List (String × List Pickup)) (h : processFiles files m = .ok m') :
    ∃ ps, parseAllFiles files = .ok ps ∧ m' = ps.foldl addPickup m := by
  induction files generalizing m with
  | nil =>
    refine ⟨[], rfl, ?_⟩
    simpa [processFiles] using h.symm
  | cons f rest ih =>
    simp only [processFiles] at h
    cases hf : processFile f.2 m with
    | error e => rw [hf] at h; exact absurd h (by simp)
    | ok m2 =>
      rw [hf] at h
      obtain ⟨ps, hps, rfl⟩ := processFile_ok _ _ _ hf
      obtain ⟨qs, hqs, rfl⟩ := ih _ h
      refine ⟨ps ++ qs, ?_, ?_⟩
      · simp [parseAllFiles, hps, hqs]
      · rw [List.foldl_append]

/-- C7: a successful run processes the matching files in lexicographically
sorted filename order skipping one header line each (that is what
`parseAllFiles (files.insertionSort fileLe)` reads), and the resulting map
sends each calendar identifier to the single group of exactly the pickups
with that identifier, in file-then-row encounter order — the stable
`filter` of the flat parse, never re-sorted by date — with no duplicate
calendar keys. -/
theorem process_data_grouping (files : List (String × List (List String)))
    (m : List (String × List Pickup)) (ps : List Pickup) (cal : String)
    (h : process_data files = .ok m)
    (hps : parseAllFiles (files.insertionSort fileLe) = .ok ps) :
    lookupGroup cal m = ps.filter (fun p => p.calendar == cal) ∧
    (m.map Prod.fst).Nodup ∧
    List.Sorted fileLe (files.insertionSort fileLe) ∧
    List.Perm (files.insertionSort fileLe) files := by
  simp only [process_data] at h
  obtain ⟨qs, hqs, rfl⟩ := processFiles_ok _ _ _ h
  rw [hps] at hqs
  obtain rfl := (Except.ok.inj hqs)
  refine ⟨?_, ?_, List.sorted_insertionSort fileLe files,
    List.perm_insertionSort fileLe files⟩
  · rw [lookupGroup_foldl]
    rfl
  · exact nodup_keys_foldl _ _ (by simp)

/-- Two input files, deliberately listed out of name order, whose rows all
belong to calendar "Ward1" and whose dates are not in chronological
order. -/
def wardFilesExample : List (String × List (List String)) :=
  [("schedules/pickup-schedule-b.csv",
    [["DT", "Calendar", "WeekStarting", "GreenBin", "Garbage", "Recycling",
      "YardWaste", "ChristmasTree"],
     ["3", "Ward1", "02-06-2024", "1", "1", "0", "0", "0"],
     ["4", "Ward1", "01-01-2024", "0", "0", "1", "0", "0"]]),
   ("schedules/pickup-schedule-a.csv",
    [["DT", "Calendar", "WeekStarting", "GreenBin", "Garbage", "Recycling",
      "YardWaste", "ChristmasTree"],
     ["1", "Ward1", "15-03-2024", "1", "0", "1", "0", "0"]])]

theorem process_data_grouping_witness :
    lookupGroup "Ward1" ((process_data wardFilesExample).toOption.getD []) =
      ((parseAllFiles (wardFilesExample.insertionSort fileLe)).toOption.getD []).filter
        (fun p => p.calendar == "Ward1") ∧
    (((process_data wardFilesExample).toOption.getD []).map Prod.fst).Nodup ∧
    List.Sorted fileLe (wardFilesExample.insertionSort fileLe) ∧
    List.Perm (wardFilesExample.insertionSort fileLe) wardFilesExample :=
  process_data_grouping wardFilesExample
    ((process_data wardFilesExample).toOption.getD [])
    ((parseAllFiles (wardFilesExample.insertionSort fileLe)).toOption.getD [])
    "Ward1" (by rfl) (by rfl)

lemma pickupInit_length_of_ok (row : List String) (p : Pickup)
    (h : Pickup.init row = .ok p) : row.length = 8 := by
  match row with
  | [] => exact absurd h (by simp [Pickup.init])
  | [_] => exact absurd h (by simp [Pickup.init])
  | [_, _] => exact absurd h (by simp [Pickup.init])
  | [_, _, _] => exact absurd h (by simp [Pickup.init])
  | [_, _, _, _] => exact absurd h (by simp [Pickup.init])
  | [_, _, _, _, _] => exact absurd h (by simp [Pickup.init])
  | [_, _, _, _, _, _] => exact absurd h (by simp [Pickup.init])
  | [_, _, _, _, _, _, _] => exact absurd h (by simp [Pickup.init])
  | f0 :: f1 :: f2 :: f3 :: f4 :: f5 :: f6 :: f7 :: f8 :: rest =>
    exact absurd h (by simp [Pickup.init])
  | [f0, f1, f2, f3, f4, f5, f6, f7] => rfl

lemma pickupInit_wrong_arity (row : List String) (h : row.length ≠ 8) :
    Pickup.init row = .error (unpackErrorMessage row.length) := by
  match row with
  | [] => rfl
  | [_] => rfl
  | [_, _] => rfl
  | [_, _, _] => rfl
  | [_, _, _, _] => rfl
  | [_, _, _, _, _] => rfl
  | [_, _, _, _, _, _] => rfl
  | [_, _, _, _, _, _, _] => rfl
  | f0 :: f1 :: f2 :: f3 :: f4 :: f5 :: f6 :: f7 :: f8 :: rest => rfl
  | [f0, f1, f2, f3, f4, f5, f6, f7] => exact absurd rfl h

lemma parseRows_ok_row (rows : List (List String)) (ps : List Pickup)
    (h : parseRows rows = .ok ps) :
    ∀ row ∈ rows, ∃ p, Pickup.init row = .ok p := by
  induction rows generalizing ps with
  | nil => intro row hrow; exact absurd hrow (List.not_mem_nil _)
  | cons r rest ih =>
    intro row hrow
    simp only [parseRows] at h
    cases hinit : Pickup.init r with
    | error e => rw [hinit] at h; exact absurd h (by simp)
    | ok p =>
      rw [hinit] at h
      cases hrest : parseRows rest with
      | error e => rw [hrest] at h; exact absurd h (by simp)
      | ok qs =>
        rcases List.mem_cons.mp hrow with rfl | hmem
        · exact ⟨p, hinit⟩
        · exact ih qs hrest row hmem

lemma parseAllFiles_ok_file (files : List (String × List (List String)))
    (ps : List Pickup) (h : parseAllFiles files = .ok ps) :
    ∀ f ∈ files, ∃ qs, parseFileRows f.2 = .ok qs := by
  induction files generalizing ps with
  | nil => intro f hf; exact absurd hf (List.not_mem_nil _)
  | cons g rest ih =>
    intro f hf
    simp only [parseAllFiles] at h
    cases hg : parseFileRows g.2 with
    | error e => rw [hg] at h; exact absurd h (by simp)
    | ok qs =>
      rw [hg] at h
      cases hrest : parseAllFiles rest with
      | error e => rw [hrest] at h; exact absurd h (by simp)
      | ok rs =>
        rcases List.mem_cons.mp hf with rfl | hmem
        · exact ⟨qs, hg⟩
        · exact ih rs hrest f hmem

/-- C8 (amended): a row with the wrong field count or with an unparsable
date aborts the entire run: a run that succeeds has parsed every
non-header row of every input file, and a row whose field count is not 8
raises the CPython unpacking error carrying the count.  (The errors do
not name the input file or line; see the counterexample theorem.) -/
theorem bad_row_aborts_run (files : List (String × List (List String)))
    (m : List (String × List Pickup)) (name : String)
    (rows : List (List String)) (row : List String)
    (h : process_data files = .ok m) (hf : (name, rows) ∈ files)
    (hr : row ∈ rows.tail) :
    (row.length = 8 ∧ ∃ p, Pickup.init row = .ok p) ∧
    (∀ r : List String, r.length ≠ 8 →
      Pickup.init r = .error (unpackErrorMessage r.length)) := by
  refine ⟨?_, fun r hr8 => pickupInit_wrong_arity r hr8⟩
  simp only [process_data] at h
  obtain ⟨ps, hps, -⟩ := processFiles_ok _ _ _ h
  have hsorted : (name, rows) ∈ files.insertionSort fileLe := ((List.perm_insertionSort fileLe files).mem_iff).mpr hf
  obtain ⟨qs, hqs⟩ := parseAllFiles_ok_file _ _ hps (name, rows) hsorted
  cases rows with
  | nil => exact absurd hr (List.not_mem_nil _)
  | cons hd body =>
    simp only [parseFileRows] at hqs
    have hmem : row ∈ body := hr
    obtain ⟨p, hp⟩ := parseRows_ok_row body qs hqs row hmem
    exact ⟨pickupInit_length_of_ok row p hp, ⟨p, hp⟩⟩

theorem bad_row_aborts_run_witness :
    ((["1", "Ward1", "15-03-2024", "1", "0", "1", "0", "0"] : List String).length = 8 ∧
      ∃ p, Pickup.init ["1", "Ward1", "15-03-2024", "1", "0", "1", "0", "0"] = .ok p) ∧
    (∀ r : List String, r.length ≠ 8 →
      Pickup.init r = .error (unpackErrorMessage r.length)) :=
  bad_row_aborts_run
    [("schedules/pickup-schedule-a.csv",
      [["h1", "h2", "h3", "h4", "h5", "h6", "h7", "h8"],
       ["1", "Ward1", "15-03-2024", "1", "0", "1", "0", "0"]])]
    ((process_data
      [("schedules/pickup-schedule-a.csv",
        [["h1", "h2", "h3", "h4", "h5", "h6", "h7", "h8"],
         ["1", "Ward1", "15-03-2024", "1", "0", "1", "0", "0"]])]).toOption.getD [])
    "schedules/pickup-schedule-a.csv"
    [["h1", "h2", "h3", "h4", "h5", "h6", "h7", "h8"],
     ["1", "Ward1", "15-03-2024", "1", "0", "1", "0", "0"]]
    ["1", "Ward1", "15-03-2024", "1", "0", "1", "0", "0"]
    (by rfl) (List.mem_singleton.mpr rfl) (List.mem_singleton.mpr rfl)

/-- A run whose single file has one row with an unsupported date format. -/
def invalidDateRunFiles : List (String × List (List String)) :=
  [("schedules/pickup-schedule-a.csv",
    [["h1", "h2", "h3", "h4", "h5", "h6", "h7", "h8"],
     ["1", "Ward1", "2024/03/15", "1", "1", "0", "0", "0"]])]

/-- C8 counterexample: the run aborts with the date `ValueError`, but that
error names only the offending value — neither the input file name nor its
directory (hence no file/line identification) occurs in the message. -/
theorem bad_row_error_lacks_file_and_line :
    process_data invalidDateRunFiles =
      .error "Date 2024/03/15 does not match any known format." ∧
    ¬ ("pickup-schedule-a.csv".data <:+:
        "Date 2024/03/15 does not match any known format.".data) ∧
    ¬ ("schedules".data <:+:
        "Date 2024/03/15 does not match any known format.".data) := by
  refine ⟨rfl, ?_, ?_⟩ <;> decide

end IcalTorontoWaste
